import Mathlib

/-!
Shallow embedding of `railway_simple_app.py`, the bootstrap script of the
acao_docente repository, together with theorems settling the claims about
its startup sequence, URL resolution, admin seeding and health endpoint.

Python strings are modelled as `List Char`; environment variables as
`Option (List Char)` (a missing variable is `none`); an expression that may
raise is modelled as `Except` with the exception message as the error.
-/

set_option autoImplicit false

/-- The steps of the module-level startup sequence of `railway_simple_app.py`,
in the granularity the spec and the claims talk about:
`constructApp` (line 35), `baseConfig` (lines 39-40), `dbResolve` (lines 44-53),
`dbBind` (`db.init_app`, line 58), `healthExpose` (route registration, line 64),
`dbProbe` (line 82), `createTables` (lines 90-93), `seedAdmin` (lines 100-109),
`loginConfig` (lines 116-132), `mailConfig` (lines 135-148), `uploadDir`
(line 151), `routesImport` (line 155). -/
inductive Step where
  | constructApp
  | baseConfig
  | dbResolve
  | dbBind
  | healthExpose
  | dbProbe
  | createTables
  | seedAdmin
  | loginConfig
  | mailConfig
  | uploadDir
  | routesImport
  deriving DecidableEq, Repr

/-- The eight non-fatal startup steps: each sits inside a `try`/`except` whose
handler only logs, so an exception raised there is swallowed. The remaining
steps (`constructApp`, `baseConfig`, `dbResolve`, `healthExpose`) run outside
any `try` block. -/
def Step.guarded : Step → Bool
  | .dbBind | .dbProbe | .createTables | .seedAdmin
  | .loginConfig | .mailConfig | .uploadDir | .routesImport => true
  | _ => false

/-- The steps the module-level code of `railway_simple_app.py` begins executing,
in source order, when the step `s` raises an exception exactly when
`fails s = true`.  Control flow is transcribed from the source:
an unguarded step that raises kills the process (the trace stops);
`dbBind` (lines 57-61), `dbProbe` (lines 81-85), `createTables` (lines 88-96)
and `seedAdmin` (lines 99-112) each have their own `except` handler that logs
and falls through; `loginConfig`, `mailConfig`, `uploadDir` and `routesImport`
share the single handler of lines 158-161, so a raise inside the group skips
the rest of the group (and nothing follows the group). -/
def startupTrace (fails : Step → Bool) : List Step :=
  [Step.constructApp] ++
  (if fails Step.constructApp then [] else
  [Step.baseConfig] ++
  (if fails Step.baseConfig then [] else
  [Step.dbResolve] ++
  (if fails Step.dbResolve then [] else
  [Step.dbBind, Step.healthExpose] ++
  (if fails Step.healthExpose then [] else
  [Step.dbProbe, Step.createTables, Step.seedAdmin, Step.loginConfig] ++
  (if fails Step.loginConfig then [] else
  [Step.mailConfig] ++
  (if fails Step.mailConfig then [] else
  [Step.uploadDir] ++
  (if fails Step.uploadDir then [] else
  [Step.routesImport])))))))

/-- The ten-step order stated in §2 of the spec, at the granularity of this
embedding (§2's step 1 is `constructApp` then `baseConfig`, its step 7 is
`loginConfig` then `mailConfig`): the liveness endpoint comes last. -/
def specOrderTrace : List Step :=
  [Step.constructApp, Step.baseConfig, Step.dbResolve, Step.dbBind,
   Step.dbProbe, Step.createTables, Step.seedAdmin, Step.loginConfig,
   Step.mailConfig, Step.uploadDir, Step.routesImport, Step.healthExpose]

/-- Python `old.isPrefixOf`-guarded first-occurrence replacement:
`s.replace(pat, rep, 1)` — scan `s` left to right, replace the first
occurrence of `pat` by `rep`, leave everything else unchanged (when `pat`
does not occur, the string is returned as-is; an empty `pat` matches at the
start, as in Python). -/
def replaceFirst (pat rep : List Char) : List Char → List Char
  | [] => if pat.isPrefixOf [] then rep else []
  | c :: rest =>
      if pat.isPrefixOf (c :: rest) then rep ++ (c :: rest).drop pat.length
      else c :: replaceFirst pat rep rest

/-- Python `s.startswith(p)`. -/
def py_startswith (s p : List Char) : Bool :=
  p.isPrefixOf s

/-- Python `s.replace(old, new, 1)` (count = 1). -/
def py_replace1 (s old new : List Char) : List Char :=
  replaceFirst old new s

/-- Lines 49-50: rewrite a deprecated `postgres://` scheme prefix to
`postgresql://`; any other string is used unchanged. -/
def normalize_database_url (url : List Char) : List Char :=
  if py_startswith url ("postgres://".data) then
    py_replace1 url ("postgres://".data) ("postgresql://".data)
  else url

/-- Lines 44-52: `database_url = os.environ.get("DATABASE_URL")`, falling back
to `"sqlite:///test.db"` when the variable is unset (`none`) or empty (Python
truthiness of `not database_url`), then scheme normalization. -/
def resolve_database_url (envVal : Option (List Char)) : List Char :=
  let database_url :=
    match envVal with
    | none => "sqlite:///test.db".data
    | some s => if s.isEmpty then "sqlite:///test.db".data else s
  normalize_database_url database_url

/-- Python `os.environ.get(key, default)`: the default is returned exactly when
the variable is unset (an empty value is returned as the empty string). -/
def py_environ_get (envVal : Option (List Char)) (default : List Char) : List Char :=
  envVal.getD default

/-- Line 39: `app.secret_key = os.environ.get("SESSION_SECRET", "railway-key-2024")`. -/
def secret_key (sessionSecret : Option (List Char)) : List Char :=
  py_environ_get sessionSecret ("railway-key-2024".data)

/-- Modelled from the spec: the `User` entity of the external `models` module
(not under this excerpt) — "a database-mapped `User` entity with `username`,
`name`, `role`, `email`, and a password-setting operation"; the credential
field holds the value produced by that operation. -/
structure User where
  username : List Char
  name : List Char
  role : List Char
  email : List Char
  password_hash : List Char
  deriving DecidableEq, Repr

/-- Modelled from the spec: `User.set_password` of the external `models`
module derives "a credential derived from a plaintext password via a one-way
transformation performed by the external entity's own method"; the
transformation itself is kept abstract as the parameter `hash` (every
theorem below holds for an arbitrary `hash`). -/
def set_password (hash : List Char → List Char) (u : User) (pw : List Char) : User :=
  { u with password_hash := hash pw }

/-- The database table of users, modelled as the list of its rows in
insertion order. `User.query.filter_by(username=...)` restricted to the rows
matching the given username. -/
def filter_by_username (dbUsers : List User) (uname : List Char) : List User :=
  dbUsers.filter (fun u => decide (u.username = uname))

/-- `.first()` on a query result: the first matching row, if any. -/
def query_first (rows : List User) : Option User :=
  rows.head?

/-- The username the seeding block (line 100) queries for and assigns
(line 103). -/
def admin_username : List Char :=
  "edson.lemes".data

/-- Lines 102-107: the freshly constructed admin user — `User()` followed by
the four field assignments and `set_password('senai103103')`. -/
def newAdminUser (hash : List Char → List Char) : User :=
  set_password hash
    { username := admin_username
      name := "Edson Lemes".data
      role := "admin".data
      email := "edson.lemes@senai.br".data
      password_hash := [] }
    ("senai103103".data)

/-- Lines 100-109: the admin-seeding step. Query for an existing user with
username `edson.lemes`; only when the query finds none, construct the admin
user and add/commit it (appending a row to the table). -/
def seed_admin (hash : List Char → List Char) (dbUsers : List User) : List User :=
  match query_first (filter_by_username dbUsers admin_username) with
  | some _ => dbUsers
  | none => dbUsers ++ [newAdminUser hash]

/-- Number of rows whose username is `uname`. -/
def countUsername (dbUsers : List User) (uname : List Char) : Nat :=
  (filter_by_username dbUsers uname).length

/-- Modelled from the spec: the external web framework's `jsonify` on a
two-key object of string literals, serialized compactly in insertion order —
§6 states the literal bodies, e.g.
`\x7b"status":"healthy","app":"running"\x7d`. -/
def jsonify2 (k1 v1 k2 v2 : List Char) : List Char :=
  "\x7b\"".data ++ k1 ++ "\":\"".data ++ v1 ++
    "\",\"".data ++ k2 ++ "\":\"".data ++ v2 ++ "\"\x7d".data

/-- A Python `try`/`except` expression: run the body; on an exception, hand
the message to the handler. -/
def py_try {A : Type} (body : Except (List Char) A) (handler : List Char → A) : A :=
  match body with
  | .ok a => a
  | .error e => handler e

/-- Lines 64-71: the `/health` handler. `attempt` is the construction of the
success payload inside the `try` (body and status 200); on an exception `e`
the handler returns `jsonify(\x7b"status": "unhealthy", "error": str(e)\x7d), 500`. -/
def health (attempt : Except (List Char) (List Char × Nat)) : List Char × Nat :=
  py_try attempt
    (fun e => (jsonify2 ("status".data) ("unhealthy".data) ("error".data) e, 500))

/-- Line 69: the success payload the handler actually constructs —
`jsonify` of the two string literals, with status 200. A pure construction
from literals, so it is total: no exception is possible. -/
def build_health_payload : List Char × Nat :=
  (jsonify2 ("status".data) ("healthy".data) ("app".data) ("running".data), 200)

/-- The response the deployed `/health` handler produces on every GET request:
the handler body with its actual (total) payload construction. -/
def health_response : List Char × Nat :=
  health (.ok build_health_payload)

/-- Lines 20-32 followed by the module body: try the three foundational
imports in order (Flask, ProxyFix, the database handle); on any failure the
`except` handler logs and calls `sys.exit(1)` — `.error 1` models process
exit with code 1 before any startup step runs; on success the rest of the
module executes, producing the startup trace. -/
def module_load (flask_ok proxyfix_ok models_ok : Bool) (fails : Step → Bool) :
    Except Nat (List Step) :=
  if flask_ok then
    if proxyfix_ok then
      if models_ok then .ok (startupTrace fails)
      else .error 1
    else .error 1
  else .error 1

/-- A concrete pre-existing admin row, used to evaluate the frame property of
the seeding step. -/
def sampleAdminRow : User :=
  { username := admin_username
    name := "Edson Lemes".data
    role := "admin".data
    email := "edson.lemes@senai.br".data
    password_hash := "stored-credential".data }

/-- C1 counterexample: injecting a failure into the login-manager configuration
step (a non-fatal startup step, normally followed by the mail-configuration
step) prevents the mail-configuration step from executing, because the four
extension steps share one exception handler. -/
theorem startup_loginConfig_failure_skips_mailConfig :
    Step.guarded Step.loginConfig = true ∧
    Step.mailConfig ∈ startupTrace (fun _ => false) ∧
    Step.mailConfig ∉ startupTrace (fun t => decide (t = Step.loginConfig)) := by
  decide

/-- C1 amended: a failure injected into any one of the individually guarded
steps (database init, connection probe, table creation, admin seeding, and
also route import, which is last in its group) leaves the executed steps
exactly those of a failure-free run; a failure in login-manager
configuration, mail configuration or upload-directory creation skips the
remaining steps of the extensions group (the first 9, 10, 11 steps of the
failure-free trace execute, respectively) but no step outside that group. -/
theorem startup_single_failure (s : Step) (hs : Step.guarded s = true) :
    startupTrace (fun t => decide (t = s)) =
      (if s = Step.loginConfig then (startupTrace (fun _ => false)).take 9
       else if s = Step.mailConfig then (startupTrace (fun _ => false)).take 10
       else if s = Step.uploadDir then (startupTrace (fun _ => false)).take 11
       else startupTrace (fun _ => false)) := by
  cases s <;> revert hs <;> decide

/-- C1 witness: a failure injected into the connection probe, a guarded step,
leaves the executed steps identical to the failure-free run. -/
theorem startup_single_failure_witness :
    startupTrace (fun t => decide (t = Step.dbProbe)) =
      startupTrace (fun _ => false) := by
  rw [startup_single_failure Step.dbProbe (by decide)]
  decide

/-- C8 counterexample: the failure-free execution order differs from the §2
order — the liveness endpoint is registered (line 64) strictly before the
connection probe (line 82), not after the other nine steps. -/
theorem startup_order_differs_from_spec :
    startupTrace (fun _ => false) ≠ specOrderTrace ∧
    (startupTrace (fun _ => false)).findIdx (fun t => decide (t = Step.healthExpose)) <
      (startupTrace (fun _ => false)).findIdx (fun t => decide (t = Step.dbProbe)) := by
  decide

/-- C8 amended: the sequencer executes the steps in source order — app
construction, base config, database resolution, database binding, liveness
endpoint exposure, then connection probe, table creation, admin seeding,
login configuration, mail configuration, upload-directory creation and route
import: §2's steps 1-9 occur in the stated relative order, but the liveness
endpoint (step 10) is exposed between binding (step 3) and the probe
(step 4), not last. -/
theorem startup_order_code :
    startupTrace (fun _ => false) =
      [Step.constructApp, Step.baseConfig, Step.dbResolve, Step.dbBind,
       Step.healthExpose, Step.dbProbe, Step.createTables, Step.seedAdmin,
       Step.loginConfig, Step.mailConfig, Step.uploadDir, Step.routesImport] := by
  decide

/-- Helper: replacing the first occurrence of a pattern that is a prefix of
the string replaces exactly that leading prefix. -/
theorem replaceFirst_of_isPrefixOf (pat rep : List Char) (s : List Char)
    (h : pat.isPrefixOf s = true) :
    replaceFirst pat rep s = rep ++ s.drop pat.length := by
  cases s with
  | nil => simp [replaceFirst, h]
  | cons c rest => simp [replaceFirst, h]

/-- C4: a connection string starting with the deprecated `postgres://` prefix
resolves to the same string with that leading prefix replaced by
`postgresql://` and every later character unchanged (the suffix after the
11-character prefix is kept verbatim); a string not starting with
`postgres://` is used as-is. -/
theorem normalize_database_url_spec (url : List Char) :
    (py_startswith url ("postgres://".data) = true →
      normalize_database_url url =
        "postgresql://".data ++ url.drop (("postgres://".data).length)) ∧
    (py_startswith url ("postgres://".data) = false →
      normalize_database_url url = url) := by
  constructor
  · intro h
    unfold normalize_database_url
    rw [if_pos h]
    exact replaceFirst_of_isPrefixOf _ _ _ h
  · intro h
    unfold normalize_database_url
    rw [h]
    simp

/-- C4 witness: evaluation at a deprecated-prefix URL and at a non-matching
URL. -/
theorem normalize_database_url_spec_witness :
    normalize_database_url ("postgres://user@host:5432/db".data) =
      "postgresql://".data ++ (("postgres://user@host:5432/db".data).drop (("postgres://".data).length)) ∧
    normalize_database_url ("mysql://host/db".data) = "mysql://host/db".data :=
  ⟨(normalize_database_url_spec ("postgres://user@host:5432/db".data)).1 (by decide),
   (normalize_database_url_spec ("mysql://host/db".data)).2 (by decide)⟩

/-- C5: when `DATABASE_URL` is unset (or set to the empty string, which Python
treats as falsy), the resolved connection string is the local file-backed
database URL `sqlite:///test.db`. -/
theorem resolve_database_url_fallback :
    resolve_database_url none = "sqlite:///test.db".data ∧
    resolve_database_url (some ("".data)) = "sqlite:///test.db".data := by
  decide

/-- C10: when `SESSION_SECRET` is unset, the application secret key is the
hard-coded constant `railway-key-2024` — the lookup is total and
deterministic, so startup neither fails nor draws a random secret. -/
theorem secret_key_default :
    secret_key none = "railway-key-2024".data := by
  decide

/-- Helper: one run of the seeding step leaves exactly `max c 1` rows with
the admin username, where `c` is the count before the run. -/
theorem countUsername_seed_admin (hash : List Char → List Char) (d : List User) :
    countUsername (seed_admin hash d) admin_username =
      max (countUsername d admin_username) 1 := by
  cases hq : query_first (filter_by_username d admin_username) with
  | some u =>
      have hpos : 1 ≤ countUsername d admin_username := by
        unfold countUsername
        cases hl : filter_by_username d admin_username with
        | nil => rw [hl] at hq; simp [query_first] at hq
        | cons a t => simp
      rw [show seed_admin hash d = d by simp [seed_admin, hq]]
      exact (Nat.max_eq_left hpos).symm
  | none =>
      have hnil : filter_by_username d admin_username = [] := by
        cases hl : filter_by_username d admin_username with
        | nil => rfl
        | cons a t => rw [hl] at hq; simp [query_first] at hq
      have hzero : countUsername d admin_username = 0 := by
        simp [countUsername, hnil]
      rw [show seed_admin hash d = d ++ [newAdminUser hash] by simp [seed_admin, hq]]
      unfold countUsername filter_by_username
      rw [List.filter_append]
      unfold countUsername filter_by_username at hzero
      rw [List.length_append, hzero]
      simp [newAdminUser, set_password]

/-- C2: running the seeding step any number of times creates at most one
account with username `edson.lemes` — for every starting table `d` and every
number of restarts `n`, the number of rows with that username after `n` runs
is bounded by `max c 1` for `c` the starting count: from an empty or
admin-free table at most one such row ever exists, and from a table already
containing the admin no row is added, because the step queries first and
inserts only when the query finds none. -/
theorem seed_admin_at_most_one (hash : List Char → List Char) (d : List User) (n : Nat) :
    countUsername ((seed_admin hash)^[n] d) admin_username ≤
      max (countUsername d admin_username) 1 := by
  induction n with
  | zero => exact le_max_left (countUsername d admin_username) 1
  | succ k ih =>
      rw [Function.iterate_succ_apply', countUsername_seed_admin]
      exact max_le ih (le_max_right _ _)

/-- C3: if a user with username `edson.lemes` already exists in the table,
the seeding step returns the table unchanged — every stored field of every
row (name, role, email, credential) is untouched; nothing is updated,
re-synchronized or deleted. -/
theorem seed_admin_frame (hash : List Char → List Char) (d : List User) (u : User)
    (hu : u ∈ d) (hname : u.username = admin_username) :
    seed_admin hash d = d := by
  have hmem : u ∈ filter_by_username d admin_username :=
    List.mem_filter.mpr ⟨hu, by simp [hname]⟩
  cases hq : query_first (filter_by_username d admin_username) with
  | some v => simp [seed_admin, hq]
  | none =>
      cases hl : filter_by_username d admin_username with
      | nil => rw [hl] at hmem; simp at hmem
      | cons a t => rw [hl] at hq; simp [query_first] at hq

/-- C3 witness: seeding a table that already holds the admin row returns it
unchanged. -/
theorem seed_admin_frame_witness :
    seed_admin (fun pw => pw) [sampleAdminRow] = [sampleAdminRow] :=
  seed_admin_frame (fun pw => pw) [sampleAdminRow] sampleAdminRow (by simp) rfl

/-- C6: the `/health` handler returns status 200 with body
`\x7b"status":"healthy","app":"running"\x7d` when the payload construction
succeeds, and status 500 with body
`\x7b"status":"unhealthy","error":"<message>"\x7d` when the construction
raises an exception with message `e`. -/
theorem health_spec (e : List Char) :
    health (.ok build_health_payload) =
      ("\x7b\"status\":\"healthy\",\"app\":\"running\"\x7d".data, 200) ∧
    health (.error e) =
      ("\x7b\"status\":\"unhealthy\",\"error\":\"".data ++ e ++ "\"\x7d".data, 500) :=
  ⟨rfl, rfl⟩

/-- C9: the deployed handler's payload is constructed by a total function of
two string literals, so the 500 branch is never taken: the response to every
GET of `/health` is status 200 with the healthy body. -/
theorem health_response_always_healthy :
    health_response = ("\x7b\"status\":\"healthy\",\"app\":\"running\"\x7d".data, 200) ∧
    health_response.2 = 200 := by
  decide

/-- C7: if any of the three foundational imports fails, module load exits
with code 1 before any startup step executes (the error result carries no
trace); if all three succeed, the module never takes the exit path and runs
the startup sequence. -/
theorem module_load_spec (f p m : Bool) (fails : Step → Bool) :
    ((f && p && m) = false → module_load f p m fails = .error 1) ∧
    ((f && p && m) = true → module_load f p m fails = .ok (startupTrace fails)) := by
  cases f <;> cases p <;> cases m <;> simp [module_load]

/-- C7 witness: evaluation with a failing first import and with all imports
succeeding. -/
theorem module_load_spec_witness :
    module_load false true true (fun _ => false) = .error 1 ∧
    module_load true true true (fun _ => false) = .ok (startupTrace (fun _ => false)) :=
  ⟨(module_load_spec false true true (fun _ => false)).1 rfl,
   (module_load_spec true true true (fun _ => false)).2 rfl⟩
